import Mathlib

/-!
Verification of the configuration-resolution module of the krustlet-style
kubelet (src/crates/kubelet/src/config.rs).

The embedding mirrors the Rust source:
* `Option<anyhow::Result<T>>` becomes `Option (Except String T)`
  (`none` = field absent, `some (Except.error e)` = present but invalid,
  `some (Except.ok v)` = present and valid);
* `PathBuf` and error values become `String`;
* `u16` becomes `Nat` (no arithmetic is performed on ports / pod counts);
* label tokens are modelled as `List Char` so that splitting on the first
  `=` is a structural recursion;
* `HashMap<String, String>` built by `FromIterator` is modelled as the
  list of inserted pairs, read through `hashMap_get` (later pairs win,
  exactly the overwrite semantics of repeated `HashMap::insert`);
* the DNS lookup `ToSocketAddrs::to_socket_addrs` inside
  `default_node_ip` is an external collaborator and is passed in as a
  function parameter `to_socket_addrs`.
-/

deriving instance DecidableEq for Except

/-- Embeds `std::net::IpAddr`: an IPv4 address (four octets) or an IPv6
address (eight 16-bit segments). -/
inductive IpAddr where
  | v4 (a b c d : Nat)
  | v6 (s0 s1 s2 s3 s4 s5 s6 s7 : Nat)
deriving DecidableEq

/-- Embeds `IpAddr::is_ipv4`. -/
def IpAddr.is_ipv4 : IpAddr → Bool
  | .v4 _ _ _ _ => true
  | .v6 _ _ _ _ _ _ _ _ => false

/-- Embeds `IpAddr::is_ipv6`. -/
def IpAddr.is_ipv6 : IpAddr → Bool
  | .v4 _ _ _ _ => false
  | .v6 _ _ _ _ _ _ _ _ => true

/-- Embeds `IpAddr::is_loopback`: for v4 the first octet is 127, for v6
the address is `::1`. -/
def IpAddr.is_loopback : IpAddr → Bool
  | .v4 a _ _ _ => a == 127
  | .v6 s0 s1 s2 s3 s4 s5 s6 s7 =>
      s0 == 0 && s1 == 0 && s2 == 0 && s3 == 0 && s4 == 0 && s5 == 0
        && s6 == 0 && s7 == 1

/-- Embeds `IpAddr::is_multicast`: for v4 the first octet is in 224..=239,
for v6 the first segment has its high byte equal to 0xff. -/
def IpAddr.is_multicast : IpAddr → Bool
  | .v4 a _ _ _ => 224 ≤ a && a ≤ 239
  | .v6 s0 _ _ _ _ _ _ _ => s0 &&& 0xff00 == 0xff00

/-- Embeds `IpAddr::is_unspecified`: all components zero. -/
def IpAddr.is_unspecified : IpAddr → Bool
  | .v4 a b c d => a == 0 && b == 0 && c == 0 && d == 0
  | .v6 s0 s1 s2 s3 s4 s5 s6 s7 =>
      s0 == 0 && s1 == 0 && s2 == 0 && s3 == 0 && s4 == 0 && s5 == 0
        && s6 == 0 && s7 == 0

/-- Embeds `std::net::SocketAddr` as far as the module uses it: an IP
address plus a port (`SocketAddr::ip` is the projection `.ip`). -/
structure SocketAddr where
  ip : IpAddr
  port : Nat
deriving DecidableEq

/-- Embeds `const DEFAULT_PORT: u16 = 3000` (config.rs line 26). -/
def DEFAULT_PORT : Nat := 3000

/-- Embeds `const DEFAULT_MAX_PODS: u16 = 110` (config.rs line 27). -/
def DEFAULT_MAX_PODS : Nat := 110

/-- Embeds `const BOOTSTRAP_FILE: &str` (config.rs line 28). -/
def BOOTSTRAP_FILE : String := "/etc/kubernetes/bootstrap-kubelet.conf"

/-- Embeds `is_same_ip_family` (config.rs lines 526-531). -/
def is_same_ip_family (first second : IpAddr) : Bool :=
  match first with
  | .v4 _ _ _ _ => second.is_ipv4
  | .v6 _ _ _ _ _ _ _ _ => second.is_ipv6

/-- Embeds `sanitize_hostname` (config.rs lines 479-482): lower-case the
hostname (`hostname.to_lowercase()`), nothing else — character by
character, no stripping or truncation. -/
def sanitize_hostname (hostname : String) : String :=
  String.mk (hostname.data.map Char.toLower)

/-- Embeds `invalid_config_value_error` (config.rs lines 545-548): the
surfaced message is the `context` string
`format!("invalid {} in configuration file: {}", value_name, e)`. -/
def invalid_config_value_error (e : String) (value_name : String) : String :=
  "invalid " ++ value_name ++ " in configuration file: " ++ e

/-- Substring containment on strings, used to state that an error message
mentions a field name. -/
def containsStr (sub s : String) : Prop :=
  List.IsInfix sub.data s.data

instance containsStr_decidable (sub s : String) : Decidable (containsStr sub s) :=
  List.decidableInfix sub.data s.data

/-- Helper for `split_one_label`: Rust's `in_string.splitn(2, '=')`
produces, when the string contains a `=`, the part before the first `=`
and the remainder after it. `splitFirst` returns those two parts, or
`none` when the string contains no `=`. -/
def splitFirst : List Char → Option (List Char × List Char)
  | [] => none
  | c :: rest =>
      if c = '=' then some ([], rest)
      else
        match splitFirst rest with
        | some (k, v) => some (c :: k, v)
        | none => none

/-- Embeds `split_one_label` (config.rs lines 533-543): split on the first
`=` only; an empty key means `None`; a token without `=` yields the whole
token with an empty value; the empty token yields `None` (its key part is
empty). -/
def split_one_label (in_string : List Char) : Option (List Char × List Char) :=
  match splitFirst in_string with
  | some ([], _) => none
  | some (k, v) => some (k, v)
  | none =>
      match in_string with
      | [] => none
      | _ => some (in_string, [])

/-- Lookup in the model of `HashMap<String, String>` built with
`FromIterator`: later insertions overwrite earlier ones, so the last pair
with the requested key wins. -/
def hashMap_get (m : List (List Char × List Char)) (k : List Char) :
    Option (List Char) :=
  (m.reverse.find? (fun p => p.1 == k)).map (fun p => p.2)

/-- Embeds the struct `ConfigBuilder` (config.rs lines 70-107), field for
field and in declaration order. -/
structure ConfigBuilder where
  node_ip : Option (Except String IpAddr)
  hostname : Option String
  node_name : Option String
  data_dir : Option String
  node_labels : Option (List (List Char × List Char))
  max_pods : Option (Except String Nat)
  server_addr : Option (Except String IpAddr)
  server_port : Option (Except String Nat)
  server_tls_cert_file : Option String
  server_tls_private_key_file : Option String
deriving DecidableEq

/-- Embeds `ConfigBuilder::default()` (the `Default` derive): every field
absent. -/
def ConfigBuilder.default : ConfigBuilder :=
  ConfigBuilder.mk none none none none none none none none none none

/-- Embeds the struct `Opts` (config.rs lines 372-462): the CLI collaborator
input. `bootstrap_file` has a compiled-in default and is therefore not
optional. -/
structure Opts where
  addr : Option IpAddr
  port : Option Nat
  max_pods : Option Nat
  tls_cert_file : Option String
  tls_private_key_file : Option String
  node_ip : Option IpAddr
  node_labels : List (List Char)
  hostname : Option String
  node_name : Option String
  data_dir : Option String
  bootstrap_file : String

/-- Embeds `ok_result_of` (config.rs lines 232-234). -/
def ok_result_of {α : Type} (value : Option α) : Option (Except String α) :=
  value.map Except.ok

/-- Embeds `ConfigBuilder::from_opts` (config.rs lines 237-260).
`opts.bootstrap_file` is not transferred into the builder, exactly as in
the source. -/
def ConfigBuilder.from_opts (opts : Opts) : ConfigBuilder :=
  let node_labels := opts.node_labels.filterMap split_one_label
  ConfigBuilder.mk
    (ok_result_of opts.node_ip)
    opts.hostname
    opts.node_name
    opts.data_dir
    (if node_labels.isEmpty then none else some node_labels)
    (ok_result_of opts.max_pods)
    (ok_result_of opts.addr)
    (ok_result_of opts.port)
    opts.tls_cert_file
    opts.tls_private_key_file

/-- Embeds `ConfigBuilder::with_override` (config.rs lines 277-292): each
field is `other.field.or(self.field)`. -/
def ConfigBuilder.with_override (self other : ConfigBuilder) : ConfigBuilder :=
  ConfigBuilder.mk
    (other.node_ip.or self.node_ip)
    (other.hostname.or self.hostname)
    (other.node_name.or self.node_name)
    (other.data_dir.or self.data_dir)
    (other.node_labels.or self.node_labels)
    (other.max_pods.or self.max_pods)
    (other.server_addr.or self.server_addr)
    (other.server_port.or self.server_port)
    (other.server_tls_cert_file.or self.server_tls_cert_file)
    (other.server_tls_private_key_file.or self.server_tls_private_key_file)

/-- Embeds the struct `ServerConfig` (config.rs lines 57-68). -/
structure ServerConfig where
  addr : IpAddr
  port : Nat
  tls_cert_file : String
  tls_private_key_file : String
deriving DecidableEq

/-- Embeds the struct `Config` (config.rs lines 38-56), in declaration
order. -/
structure Config where
  node_ip : IpAddr
  hostname : String
  node_name : String
  server_config : ServerConfig
  data_dir : String
  node_labels : List (List Char × List Char)
  max_pods : Nat
  bootstrap_file : String
deriving DecidableEq

/-- Embeds the struct `ConfigBuilderFallbacks` (config.rs lines 109-115):
a record of fallback closures. The zero-argument Rust function pointers
become functions from `Unit`. -/
structure ConfigBuilderFallbacks where
  hostname : Unit → String
  data_dir : Unit → String
  cert_path : String → String
  key_path : String → String
  node_ip : String → IpAddr → IpAddr

/-- The candidate filter used by `default_node_ip` (config.rs lines
498-503): not loopback, not multicast, not unspecified, and of the
preferred IP family. -/
def node_ip_candidate_ok (preferred_ip_family : IpAddr) (i : SocketAddr) :
    Bool :=
  !i.ip.is_loopback && !i.ip.is_multicast && !i.ip.is_unspecified
    && is_same_ip_family i.ip preferred_ip_family

/-- Embeds `default_node_ip` (config.rs lines 489-510). The source appends
`":80"` to the hostname (via `push_str` on a clone), resolves it with
`to_socket_addrs` (external name service, passed here as a parameter,
returning either the candidate list or a resolution error), and takes the
first candidate passing `node_ip_candidate_ok`; if none qualifies it
returns the fixed "specify a node IP manually" error. -/
def default_node_ip (to_socket_addrs : String → Except String (List SocketAddr))
    (hostname : String) (preferred_ip_family : IpAddr) : Except String IpAddr :=
  let hostname := hostname ++ ":80"
  match to_socket_addrs hostname with
  | Except.error e => Except.error e
  | Except.ok addrs =>
      match addrs.find? (node_ip_candidate_ok preferred_ip_family) with
      | some i => Except.ok i.ip
      | none =>
          Except.error
            "unable to find default IP address for node. Please specify a node IP manually"

/-- Embeds `default_key_path` (config.rs lines 512-514):
`data_dir.join("config/krustlet.key")`. -/
def default_key_path (data_dir : String) : String :=
  data_dir ++ "/config/krustlet.key"

/-- Embeds `default_cert_path` (config.rs lines 516-518). -/
def default_cert_path (data_dir : String) : String :=
  data_dir ++ "/config/krustlet.crt"

/-- Embeds the `server_config.addr` fallback of `Config::default_config`
(config.rs lines 137-142): the unspecified address `0.0.0.0` or `::` of
the same family as the preferred IP family. This is the definition the
specification's phrase "unspecified address of the preferred IP family"
denotes. -/
def unspecified_addr (preferred_ip_family : IpAddr) : IpAddr :=
  match preferred_ip_family with
  | .v4 _ _ _ _ => IpAddr.v4 0 0 0 0
  | .v6 _ _ _ _ _ _ _ _ => IpAddr.v6 0 0 0 0 0 0 0 0

/-- Embeds `ConfigBuilder::build` (config.rs lines 294-342), in the exact
source order: hostname, data_dir, server_addr (error "server address"),
tls cert/key, server_port (error "server port"), node_ip (error
"node IP", fallback receives the resolved hostname and the resolved
server address), node_name (sanitized hostname), max_pods (error
"maximum pods"), bootstrap_file.

Line 325 of the source reads `let bootstrap_file = opts.bootstrap_file;`
but no `opts` is bound anywhere in `build`'s scope (`ConfigBuilder` has no
`bootstrap_file` field and `from_opts` discards `Opts::bootstrap_file`),
so the source does not compile as written. We model that free variable as
the explicit extra parameter `opts_bootstrap_file`. -/
def ConfigBuilder.build (self : ConfigBuilder)
    (fallbacks : ConfigBuilderFallbacks) (opts_bootstrap_file : String) :
    Except String Config :=
  let empty_ip_addr : IpAddr := IpAddr.v4 0 0 0 0
  let hostname := self.hostname.getD (fallbacks.hostname ())
  let data_dir := self.data_dir.getD (fallbacks.data_dir ())
  match self.server_addr.getD (Except.ok empty_ip_addr) with
  | Except.error e => Except.error (invalid_config_value_error e "server address")
  | Except.ok server_addr =>
      let server_tls_cert_file :=
        self.server_tls_cert_file.getD (fallbacks.cert_path data_dir)
      let server_tls_private_key_file :=
        self.server_tls_private_key_file.getD (fallbacks.key_path data_dir)
      match self.server_port.getD (Except.ok DEFAULT_PORT) with
      | Except.error e => Except.error (invalid_config_value_error e "server port")
      | Except.ok server_port =>
          match self.node_ip.getD (Except.ok (fallbacks.node_ip hostname server_addr)) with
          | Except.error e => Except.error (invalid_config_value_error e "node IP")
          | Except.ok node_ip =>
              let node_name := self.node_name.getD (sanitize_hostname hostname)
              match self.max_pods.getD (Except.ok DEFAULT_MAX_PODS) with
              | Except.error e =>
                  Except.error (invalid_config_value_error e "maximum pods")
              | Except.ok max_pods =>
                  let bootstrap_file := opts_bootstrap_file
                  Except.ok
                    (Config.mk node_ip hostname node_name
                      (ServerConfig.mk server_addr server_port
                        server_tls_cert_file server_tls_private_key_file)
                      data_dir (self.node_labels.getD []) max_pods
                      bootstrap_file)

/-- The fallback record used by the source's own unit tests (config.rs
lines 558-566), used here to instantiate witnesses. -/
def test_fallbacks : ConfigBuilderFallbacks :=
  ConfigBuilderFallbacks.mk
    (fun _ => "fallback-hostname")
    (fun _ => "/fallback/data/dir")
    (fun _ => "/fallback/cert/path")
    (fun _ => "/fallback/key/path")
    (fun _ _ => IpAddr.v4 4 4 4 4)

/-- Replace the `node_ip` field of a builder. -/
def ConfigBuilder.set_node_ip (b : ConfigBuilder)
    (v : Option (Except String IpAddr)) : ConfigBuilder :=
  ConfigBuilder.mk v b.hostname b.node_name b.data_dir b.node_labels
    b.max_pods b.server_addr b.server_port b.server_tls_cert_file
    b.server_tls_private_key_file

/-- Replace the `max_pods` field of a builder. -/
def ConfigBuilder.set_max_pods (b : ConfigBuilder)
    (v : Option (Except String Nat)) : ConfigBuilder :=
  ConfigBuilder.mk b.node_ip b.hostname b.node_name b.data_dir b.node_labels
    v b.server_addr b.server_port b.server_tls_cert_file
    b.server_tls_private_key_file

/-- Replace the `server_addr` field of a builder. -/
def ConfigBuilder.set_server_addr (b : ConfigBuilder)
    (v : Option (Except String IpAddr)) : ConfigBuilder :=
  ConfigBuilder.mk b.node_ip b.hostname b.node_name b.data_dir b.node_labels
    b.max_pods v b.server_port b.server_tls_cert_file
    b.server_tls_private_key_file

/-- Replace the `server_port` field of a builder. -/
def ConfigBuilder.set_server_port (b : ConfigBuilder)
    (v : Option (Except String Nat)) : ConfigBuilder :=
  ConfigBuilder.mk b.node_ip b.hostname b.node_name b.data_dir b.node_labels
    b.max_pods b.server_addr v b.server_tls_cert_file
    b.server_tls_private_key_file

/-- A field state that is not `Invalid`: absent, or present and valid. -/
def field_present_valid {α : Type} (f : Option (Except String α)) : Prop :=
  f = none ∨ ∃ v, f = some (Except.ok v)

/-- Presence-precedence form of `Option.or`. -/
lemma option_or_eq_if {α : Type} (o b : Option α) :
    o.or b = if o.isSome then o else b := by
  cases o <;> rfl

/-- C1: for every pair of partial configurations A (base) and B (override)
and every configuration field F, the merged partial satisfies
merge(A,B).F = B.F whenever B.F is present (not Absent), and
merge(A,B).F = A.F whenever B.F is Absent; since a present state is
`some (Except.ok v)` or `some (Except.error e)`, an override's Invalid
state replaces a base's Valid state, and an Absent override never erases a
present base value. -/
theorem C1_merge_takes_present_override_per_field (A B : ConfigBuilder) :
    (ConfigBuilder.with_override A B).node_ip
        = (if B.node_ip.isSome then B.node_ip else A.node_ip)
  ∧ (ConfigBuilder.with_override A B).hostname
        = (if B.hostname.isSome then B.hostname else A.hostname)
  ∧ (ConfigBuilder.with_override A B).node_name
        = (if B.node_name.isSome then B.node_name else A.node_name)
  ∧ (ConfigBuilder.with_override A B).data_dir
        = (if B.data_dir.isSome then B.data_dir else A.data_dir)
  ∧ (ConfigBuilder.with_override A B).node_labels
        = (if B.node_labels.isSome then B.node_labels else A.node_labels)
  ∧ (ConfigBuilder.with_override A B).max_pods
        = (if B.max_pods.isSome then B.max_pods else A.max_pods)
  ∧ (ConfigBuilder.with_override A B).server_addr
        = (if B.server_addr.isSome then B.server_addr else A.server_addr)
  ∧ (ConfigBuilder.with_override A B).server_port
        = (if B.server_port.isSome then B.server_port else A.server_port)
  ∧ (ConfigBuilder.with_override A B).server_tls_cert_file
        = (if B.server_tls_cert_file.isSome then B.server_tls_cert_file
           else A.server_tls_cert_file)
  ∧ (ConfigBuilder.with_override A B).server_tls_private_key_file
        = (if B.server_tls_private_key_file.isSome then B.server_tls_private_key_file
           else A.server_tls_private_key_file) := by
  refine ⟨?_, ?_, ?_, ?_, ?_, ?_, ?_, ?_, ?_, ?_⟩ <;>
    exact option_or_eq_if _ _

/-- C8: merging is associative: merge(merge(A,B),C) = merge(A,merge(B,C)),
hence associative on every field. -/
theorem C8_merge_assoc (A B C : ConfigBuilder) :
    ConfigBuilder.with_override (ConfigBuilder.with_override A B) C
      = ConfigBuilder.with_override A (ConfigBuilder.with_override B C) := by
  simp [ConfigBuilder.with_override, Option.or_assoc]

/-- C2: if a fallible field F is Invalid in A and present (Valid or
Invalid) in B, then the result of build on merge(A,B) is completely
independent of A's state for F — replacing A.F by Absent does not change
the build result, so the error A carried for F cannot appear in the
result. Stated for each of the four fields that can be Invalid. -/
theorem C2_overridden_invalid_never_reported (A B : ConfigBuilder)
    (fb : ConfigBuilderFallbacks) (bf : String) :
    (∀ e, A.node_ip = some (Except.error e) → B.node_ip ≠ none →
      ConfigBuilder.build (ConfigBuilder.with_override A B) fb bf
        = ConfigBuilder.build
            (ConfigBuilder.with_override (A.set_node_ip none) B) fb bf)
  ∧ (∀ e, A.max_pods = some (Except.error e) → B.max_pods ≠ none →
      ConfigBuilder.build (ConfigBuilder.with_override A B) fb bf
        = ConfigBuilder.build
            (ConfigBuilder.with_override (A.set_max_pods none) B) fb bf)
  ∧ (∀ e, A.server_addr = some (Except.error e) → B.server_addr ≠ none →
      ConfigBuilder.build (ConfigBuilder.with_override A B) fb bf
        = ConfigBuilder.build
            (ConfigBuilder.with_override (A.set_server_addr none) B) fb bf)
  ∧ (∀ e, A.server_port = some (Except.error e) → B.server_port ≠ none →
      ConfigBuilder.build (ConfigBuilder.with_override A B) fb bf
        = ConfigBuilder.build
            (ConfigBuilder.with_override (A.set_server_port none) B) fb bf) := by
  refine ⟨?_, ?_, ?_, ?_⟩
  · intro e hA hB
    rcases hbn : B.node_ip with _ | x
    · exact absurd hbn hB
    · simp [ConfigBuilder.with_override, ConfigBuilder.set_node_ip, hbn,
        Option.or]
  · intro e hA hB
    rcases hbn : B.max_pods with _ | x
    · exact absurd hbn hB
    · simp [ConfigBuilder.with_override, ConfigBuilder.set_max_pods, hbn,
        Option.or]
  · intro e hA hB
    rcases hbn : B.server_addr with _ | x
    · exact absurd hbn hB
    · simp [ConfigBuilder.with_override, ConfigBuilder.set_server_addr, hbn,
        Option.or]
  · intro e hA hB
    rcases hbn : B.server_port with _ | x
    · exact absurd hbn hB
    · simp [ConfigBuilder.with_override, ConfigBuilder.set_server_port, hbn,
        Option.or]

/-- Witness for C2: a base whose server port is Invalid ("boom"),
overridden by a valid port 1234 — the build result equals the build result
with the base's invalid port erased. -/
theorem C2_overridden_invalid_never_reported_witness :
    ConfigBuilder.build
        (ConfigBuilder.with_override
          (ConfigBuilder.set_server_port ConfigBuilder.default
            (some (Except.error "boom")))
          (ConfigBuilder.set_server_port ConfigBuilder.default
            (some (Except.ok 1234))))
        test_fallbacks BOOTSTRAP_FILE
      = ConfigBuilder.build
          (ConfigBuilder.with_override
            (ConfigBuilder.set_server_port
              (ConfigBuilder.set_server_port ConfigBuilder.default
                (some (Except.error "boom"))) none)
            (ConfigBuilder.set_server_port ConfigBuilder.default
              (some (Except.ok 1234))))
          test_fallbacks BOOTSTRAP_FILE :=
  (C2_overridden_invalid_never_reported _ _ test_fallbacks
      BOOTSTRAP_FILE).2.2.2 "boom" rfl (by decide)

/-- A `getD` with `ok` default that evaluates to an error can only come
from a present invalid field. -/
lemma getD_ok_eq_error {α : Type} {f : Option (Except String α)} {d : α}
    {e : String} (h : f.getD (Except.ok d) = Except.error e) :
    f = some (Except.error e) := by
  cases f with
  | none => simp [Option.getD] at h
  | some x => simp [Option.getD] at h; rw [h]

/-- A `getD` with `ok` default that evaluates to `ok` means the field is
absent or present and valid. -/
lemma fpv_of_getD_ok {α : Type} {f : Option (Except String α)} {d v : α}
    (h : f.getD (Except.ok d) = Except.ok v) : field_present_valid f := by
  cases f with
  | none => exact Or.inl rfl
  | some x =>
    refine Or.inr ⟨v, ?_⟩
    simp only [Option.getD] at h
    rw [h]

/-- Every error returned by `build` is an `invalid_config_value_error` for
one of the four fallible fields, carrying that field's own error text. -/
lemma build_error_cases (b : ConfigBuilder) (fb : ConfigBuilderFallbacks)
    (bf : String) (err : String)
    (h : ConfigBuilder.build b fb bf = Except.error err) :
    (∃ e, b.server_addr = some (Except.error e)
        ∧ err = invalid_config_value_error e "server address")
  ∨ (∃ e, b.server_port = some (Except.error e)
        ∧ err = invalid_config_value_error e "server port")
  ∨ (∃ e, b.node_ip = some (Except.error e)
        ∧ err = invalid_config_value_error e "node IP")
  ∨ (∃ e, b.max_pods = some (Except.error e)
        ∧ err = invalid_config_value_error e "maximum pods") := by
  simp only [ConfigBuilder.build] at h
  split at h
  next e heqa =>
    injection h with h2
    exact Or.inl ⟨e, getD_ok_eq_error heqa, h2.symm⟩
  next sa heqa =>
    split at h
    next e heqp =>
      injection h with h2
      exact Or.inr (Or.inl ⟨e, getD_ok_eq_error heqp, h2.symm⟩)
    next sp heqp =>
      split at h
      next e heqn =>
        injection h with h2
        exact Or.inr (Or.inr (Or.inl ⟨e, getD_ok_eq_error heqn, h2.symm⟩))
      next ni heqn =>
        split at h
        next e heqm =>
          injection h with h2
          exact Or.inr (Or.inr (Or.inr ⟨e, getD_ok_eq_error heqm, h2.symm⟩))
        next mp heqm => exact Except.noConfusion h

/-- Full characterization of a successful `build`: each field of the
resulting configuration in terms of the builder, the fallbacks and the
(unbound in the source) `opts_bootstrap_file`. -/
lemma build_ok_elim (b : ConfigBuilder) (fb : ConfigBuilderFallbacks)
    (bf : String) (cfg : Config)
    (h : ConfigBuilder.build b fb bf = Except.ok cfg) :
    cfg.hostname = b.hostname.getD (fb.hostname ())
  ∧ cfg.data_dir = b.data_dir.getD (fb.data_dir ())
  ∧ b.server_addr.getD (Except.ok (IpAddr.v4 0 0 0 0))
      = Except.ok cfg.server_config.addr
  ∧ cfg.server_config.tls_cert_file
      = b.server_tls_cert_file.getD (fb.cert_path cfg.data_dir)
  ∧ cfg.server_config.tls_private_key_file
      = b.server_tls_private_key_file.getD (fb.key_path cfg.data_dir)
  ∧ b.server_port.getD (Except.ok DEFAULT_PORT) = Except.ok cfg.server_config.port
  ∧ b.node_ip.getD
        (Except.ok (fb.node_ip cfg.hostname cfg.server_config.addr))
      = Except.ok cfg.node_ip
  ∧ cfg.node_name = b.node_name.getD (sanitize_hostname cfg.hostname)
  ∧ b.max_pods.getD (Except.ok DEFAULT_MAX_PODS) = Except.ok cfg.max_pods
  ∧ cfg.node_labels = b.node_labels.getD []
  ∧ cfg.bootstrap_file = bf := by
  simp only [ConfigBuilder.build] at h
  split at h
  next e heqa => exact Except.noConfusion h
  next sa heqa =>
    split at h
    next e heqp => exact Except.noConfusion h
    next sp heqp =>
      split at h
      next e heqn => exact Except.noConfusion h
      next ni heqn =>
        split at h
        next e heqm => exact Except.noConfusion h
        next mp heqm =>
          injection h with h2
          subst h2
          exact ⟨rfl, rfl, heqa, rfl, rfl, heqp, heqn, rfl, heqm, rfl, rfl⟩

/-- If every fallible field is absent or valid, `build` succeeds. -/
lemma build_ok_of_valid (b : ConfigBuilder) (fb : ConfigBuilderFallbacks)
    (bf : String) (ha : field_present_valid b.server_addr)
    (hp : field_present_valid b.server_port)
    (hn : field_present_valid b.node_ip)
    (hm : field_present_valid b.max_pods) :
    ∃ cfg, ConfigBuilder.build b fb bf = Except.ok cfg := by
  cases hb : ConfigBuilder.build b fb bf with
  | ok cfg => exact ⟨cfg, rfl⟩
  | error err =>
    rcases build_error_cases b fb bf err hb with
      ⟨e, he, _⟩ | ⟨e, he, _⟩ | ⟨e, he, _⟩ | ⟨e, he, _⟩
    · rcases ha with h0 | ⟨v, h0⟩ <;> simp [h0] at he
    · rcases hp with h0 | ⟨v, h0⟩ <;> simp [h0] at he
    · rcases hn with h0 | ⟨v, h0⟩ <;> simp [h0] at he
    · rcases hm with h0 | ⟨v, h0⟩ <;> simp [h0] at he

/-- C3 counterexample: resolving the all-Absent partial succeeds, but the
resolved server bind address is the IPv4 unspecified address 0.0.0.0
unconditionally (`build` takes no preferred-family input and hardcodes
`empty_ip_addr`); for an IPv6 preferred family (here ::1) the claimed
equality with that family's unspecified address fails. -/
theorem C3_all_absent_defaults_counterexample :
    ∃ cfg, ConfigBuilder.build ConfigBuilder.default test_fallbacks
        BOOTSTRAP_FILE = Except.ok cfg
      ∧ cfg.server_config.addr
          ≠ unspecified_addr (IpAddr.v6 0 0 0 0 0 0 0 1) :=
  ⟨_, rfl, by decide⟩

/-- C3 (amended): resolving an all-Absent partial configuration succeeds
and returns exactly the fallback defaults: hostname and data directory
from the fallback functions, server port DEFAULT_PORT = 3000, max pods
DEFAULT_MAX_PODS = 110, server bind address 0.0.0.0 (the IPv4 unspecified
address, irrespective of any preferred IP family), and TLS cert/key paths
computed by the fallback path functions from the resolved data
directory. -/
theorem C3_all_absent_defaults (fb : ConfigBuilderFallbacks) (bf : String) :
    ∃ cfg, ConfigBuilder.build ConfigBuilder.default fb bf = Except.ok cfg
      ∧ cfg.hostname = fb.hostname ()
      ∧ cfg.data_dir = fb.data_dir ()
      ∧ cfg.server_config.port = DEFAULT_PORT
      ∧ DEFAULT_PORT = 3000
      ∧ cfg.max_pods = DEFAULT_MAX_PODS
      ∧ DEFAULT_MAX_PODS = 110
      ∧ cfg.server_config.addr = IpAddr.v4 0 0 0 0
      ∧ cfg.server_config.tls_cert_file = fb.cert_path (fb.data_dir ())
      ∧ cfg.server_config.tls_private_key_file = fb.key_path (fb.data_dir ()) :=
  ⟨_, rfl, rfl, rfl, rfl, rfl, rfl, rfl, rfl, rfl, rfl⟩

/-- C5 counterexample: a field error is surfaced with the text
"invalid server port in configuration file: boom", which is not the
claimed "invalid server port in configuration: boom" — the actual template
says "in configuration file:", not "in configuration:". -/
theorem C5_error_text_counterexample :
    ConfigBuilder.build
        (ConfigBuilder.set_server_port ConfigBuilder.default
          (some (Except.error "boom")))
        test_fallbacks BOOTSTRAP_FILE
      = Except.error "invalid server port in configuration file: boom"
    ∧ "invalid server port in configuration file: boom"
        ≠ "invalid server port in configuration: boom" :=
  ⟨by decide, by decide⟩

/-- C5 (amended): every field error produced by build is surfaced with the
message text "invalid \<field-name\> in configuration file: \<cause\>",
where the field name is the logical one ("server address", "server port",
"node IP", "maximum pods") and never the raw source key, and the cause is
the original parse-failure text carried by that same field. -/
theorem C5_error_format (b : ConfigBuilder) (fb : ConfigBuilderFallbacks)
    (bf : String) (err : String)
    (h : ConfigBuilder.build b fb bf = Except.error err) :
    ∃ name cause,
      err = "invalid " ++ name ++ " in configuration file: " ++ cause
      ∧ ((name = "server address" ∧ b.server_addr = some (Except.error cause))
        ∨ (name = "server port" ∧ b.server_port = some (Except.error cause))
        ∨ (name = "node IP" ∧ b.node_ip = some (Except.error cause))
        ∨ (name = "maximum pods" ∧ b.max_pods = some (Except.error cause))) := by
  rcases build_error_cases b fb bf err h with
    ⟨e, hf, he⟩ | ⟨e, hf, he⟩ | ⟨e, hf, he⟩ | ⟨e, hf, he⟩
  · exact ⟨"server address", e, he, Or.inl ⟨rfl, hf⟩⟩
  · exact ⟨"server port", e, he, Or.inr (Or.inl ⟨rfl, hf⟩)⟩
  · exact ⟨"node IP", e, he, Or.inr (Or.inr (Or.inl ⟨rfl, hf⟩))⟩
  · exact ⟨"maximum pods", e, he, Or.inr (Or.inr (Or.inr ⟨rfl, hf⟩))⟩

/-- Witness for C5's amended theorem at a concrete invalid port. -/
theorem C5_error_format_witness :
    ∃ name cause,
      "invalid server port in configuration file: boom"
          = "invalid " ++ name ++ " in configuration file: " ++ cause
      ∧ ((name = "server address"
            ∧ (ConfigBuilder.set_server_port ConfigBuilder.default
                (some (Except.error "boom"))).server_addr
              = some (Except.error cause))
        ∨ (name = "server port"
            ∧ (ConfigBuilder.set_server_port ConfigBuilder.default
                (some (Except.error "boom"))).server_port
              = some (Except.error cause))
        ∨ (name = "node IP"
            ∧ (ConfigBuilder.set_server_port ConfigBuilder.default
                (some (Except.error "boom"))).node_ip
              = some (Except.error cause))
        ∨ (name = "maximum pods"
            ∧ (ConfigBuilder.set_server_port ConfigBuilder.default
                (some (Except.error "boom"))).max_pods
              = some (Except.error cause))) :=
  C5_error_format
    (ConfigBuilder.set_server_port ConfigBuilder.default
      (some (Except.error "boom")))
    test_fallbacks BOOTSTRAP_FILE
    "invalid server port in configuration file: boom" (by decide)

/-- C9: the code is broken here. `build` (config.rs line 325) reads
`opts.bootstrap_file`, but no `opts` is in scope — `ConfigBuilder` has no
bootstrap field and `from_opts` discards `Opts::bootstrap_file` — so
nothing connects the resolved `bootstrap_file` to the compiled-in default
`BOOTSTRAP_FILE`. Modelling the unbound `opts` as the ambient parameter
`opts_bootstrap_file`, the resolved bootstrap file is always exactly that
ambient value, and for any ambient value other than the default the claim
fails. -/
theorem C9_bootstrap_file_unbound (b : ConfigBuilder)
    (fb : ConfigBuilderFallbacks) (bf : String) :
    (∀ cfg, ConfigBuilder.build b fb bf = Except.ok cfg →
      cfg.bootstrap_file = bf)
    ∧ ∃ cfg, ConfigBuilder.build ConfigBuilder.default test_fallbacks
          "/nonsense/path" = Except.ok cfg
        ∧ cfg.bootstrap_file ≠ BOOTSTRAP_FILE := by
  constructor
  · intro cfg h
    exact (build_ok_elim b fb bf cfg h).2.2.2.2.2.2.2.2.2.2
  · exact ⟨_, rfl, by decide⟩

/-- Witness for C9's theorem: the all-Absent builder resolved with the
ambient value equal to the default does yield that value. -/
theorem C9_bootstrap_file_unbound_witness :
    (Config.mk (IpAddr.v4 4 4 4 4) "fallback-hostname" "fallback-hostname"
        (ServerConfig.mk (IpAddr.v4 0 0 0 0) 3000 "/fallback/cert/path"
          "/fallback/key/path")
        "/fallback/data/dir" [] 110 BOOTSTRAP_FILE).bootstrap_file
      = BOOTSTRAP_FILE :=
  (C9_bootstrap_file_unbound ConfigBuilder.default test_fallbacks
      BOOTSTRAP_FILE).1 _ (by decide)

/-- C10: only the four fields node IP, server address, server port and
maximum pods can carry an Invalid state (their builder type is the only
fallible one), so every error `build` returns is attributed to one of
those four logical names — never to hostname, node name, data directory,
TLS cert path, TLS key path or node labels — and whenever the four
fallible fields are absent-or-valid, `build` succeeds: the remaining
fields' Absent states always fall through to fallbacks without failing. -/
theorem C10_error_attribution (b : ConfigBuilder)
    (fb : ConfigBuilderFallbacks) (bf : String) :
    (∀ err, ConfigBuilder.build b fb bf = Except.error err →
      ∃ e name,
        (name = "server address" ∨ name = "server port" ∨ name = "node IP"
          ∨ name = "maximum pods")
        ∧ err = invalid_config_value_error e name)
    ∧ (field_present_valid b.server_addr → field_present_valid b.server_port →
       field_present_valid b.node_ip → field_present_valid b.max_pods →
       ∃ cfg, ConfigBuilder.build b fb bf = Except.ok cfg) := by
  constructor
  · intro err h
    rcases build_error_cases b fb bf err h with
      ⟨e, _, he⟩ | ⟨e, _, he⟩ | ⟨e, _, he⟩ | ⟨e, _, he⟩
    · exact ⟨e, "server address", Or.inl rfl, he⟩
    · exact ⟨e, "server port", Or.inr (Or.inl rfl), he⟩
    · exact ⟨e, "node IP", Or.inr (Or.inr (Or.inl rfl)), he⟩
    · exact ⟨e, "maximum pods", Or.inr (Or.inr (Or.inr rfl)), he⟩
  · exact build_ok_of_valid b fb bf

/-- Witness for C10: the all-Absent builder has every fallible field
absent, and build succeeds on it. -/
theorem C10_error_attribution_witness :
    ∃ cfg, ConfigBuilder.build ConfigBuilder.default test_fallbacks
        BOOTSTRAP_FILE = Except.ok cfg :=
  (C10_error_attribution ConfigBuilder.default test_fallbacks
      BOOTSTRAP_FILE).2 (Or.inl rfl) (Or.inl rfl) (Or.inl rfl) (Or.inl rfl)

/-- The error message built by `invalid_config_value_error` always contains
the logical field name. -/
lemma containsStr_invalid_config_value_error (e name : String) :
    containsStr name (invalid_config_value_error e name) :=
  ⟨"invalid ".data, (" in configuration file: " ++ e).data, by
    simp [invalid_config_value_error, String.data_append]⟩

/-- An Invalid server address surfaces its own error unconditionally
(it is the first field `build` checks). -/
lemma build_addr_invalid (b : ConfigBuilder) (fb : ConfigBuilderFallbacks)
    (bf : String) (e : String)
    (h : b.server_addr = some (Except.error e)) :
    ConfigBuilder.build b fb bf
      = Except.error (invalid_config_value_error e "server address") := by
  simp [ConfigBuilder.build, h]

/-- An Invalid server port surfaces its own error when the server address
is not Invalid. -/
lemma build_port_invalid (b : ConfigBuilder) (fb : ConfigBuilderFallbacks)
    (bf : String) (e : String) (ha : field_present_valid b.server_addr)
    (h : b.server_port = some (Except.error e)) :
    ConfigBuilder.build b fb bf
      = Except.error (invalid_config_value_error e "server port") := by
  rcases ha with ha | ⟨v, ha⟩ <;> simp [ConfigBuilder.build, ha, h]

/-- An Invalid node IP surfaces its own error when neither server address
nor server port is Invalid. -/
lemma build_node_ip_invalid (b : ConfigBuilder) (fb : ConfigBuilderFallbacks)
    (bf : String) (e : String) (ha : field_present_valid b.server_addr)
    (hp : field_present_valid b.server_port)
    (h : b.node_ip = some (Except.error e)) :
    ConfigBuilder.build b fb bf
      = Except.error (invalid_config_value_error e "node IP") := by
  rcases ha with ha | ⟨va, ha⟩ <;> rcases hp with hp | ⟨vp, hp⟩ <;>
    simp [ConfigBuilder.build, ha, hp, h]

/-- An Invalid max pods surfaces its own error when no earlier fallible
field is Invalid. -/
lemma build_max_pods_invalid (b : ConfigBuilder) (fb : ConfigBuilderFallbacks)
    (bf : String) (e : String) (ha : field_present_valid b.server_addr)
    (hp : field_present_valid b.server_port)
    (hn : field_present_valid b.node_ip)
    (h : b.max_pods = some (Except.error e)) :
    ConfigBuilder.build b fb bf
      = Except.error (invalid_config_value_error e "maximum pods") := by
  rcases ha with ha | ⟨va, ha⟩ <;> rcases hp with hp | ⟨vp, hp⟩ <;>
    rcases hn with hn | ⟨vn, hn⟩ <;> simp [ConfigBuilder.build, ha, hp, hn, h]

/-- A successful build means every fallible field was absent or valid. -/
lemma build_ok_fields_valid (b : ConfigBuilder) (fb : ConfigBuilderFallbacks)
    (bf : String) (cfg : Config)
    (h : ConfigBuilder.build b fb bf = Except.ok cfg) :
    field_present_valid b.server_addr ∧ field_present_valid b.server_port
      ∧ field_present_valid b.node_ip ∧ field_present_valid b.max_pods := by
  obtain ⟨_, _, h3, _, _, h6, h7, _, h9, _, _⟩ := build_ok_elim b fb bf cfg h
  exact ⟨fpv_of_getD_ok h3, fpv_of_getD_ok h6, fpv_of_getD_ok h7,
    fpv_of_getD_ok h9⟩

/-- C4 counterexample: a partial in which the server port is Invalid
("bad port") and never overridden, but the server address is also Invalid
("bad addr"). Build fails with the server-address error, whose text does
not contain the logical name "server port" of the invalid, unoverridden
port field — refuting the claim as universally stated. -/
theorem C4_invalid_unoverridden_counterexample :
    ConfigBuilder.build
        (ConfigBuilder.set_server_port
          (ConfigBuilder.set_server_addr ConfigBuilder.default
            (some (Except.error "bad addr")))
          (some (Except.error "bad port")))
        test_fallbacks BOOTSTRAP_FILE
      = Except.error "invalid server address in configuration file: bad addr"
    ∧ ¬ containsStr "server port"
        "invalid server address in configuration file: bad addr" :=
  ⟨by decide, by decide⟩

/-- C4 (amended): if a fallible field F is Invalid and no
higher-precedence source supplies F, build fails; the error text contains
F's logical field name provided no field earlier in build's fixed order
(server address, then server port, then node IP, then maximum pods) is
also Invalid — in general the error names the earliest Invalid field.
In particular an unparsable listenerPort with no override and no other
invalid field yields an error mentioning "server port". -/
theorem C4_invalid_unoverridden_fails_naming_field (b : ConfigBuilder)
    (fb : ConfigBuilderFallbacks) (bf : String) :
    (∀ e, b.server_addr = some (Except.error e) →
      ConfigBuilder.build b fb bf
          = Except.error (invalid_config_value_error e "server address")
        ∧ containsStr "server address"
            (invalid_config_value_error e "server address"))
  ∧ (∀ e, field_present_valid b.server_addr →
      b.server_port = some (Except.error e) →
      ConfigBuilder.build b fb bf
          = Except.error (invalid_config_value_error e "server port")
        ∧ containsStr "server port"
            (invalid_config_value_error e "server port"))
  ∧ (∀ e, field_present_valid b.server_addr →
      field_present_valid b.server_port →
      b.node_ip = some (Except.error e) →
      ConfigBuilder.build b fb bf
          = Except.error (invalid_config_value_error e "node IP")
        ∧ containsStr "node IP" (invalid_config_value_error e "node IP"))
  ∧ (∀ e, field_present_valid b.server_addr →
      field_present_valid b.server_port →
      field_present_valid b.node_ip →
      b.max_pods = some (Except.error e) →
      ConfigBuilder.build b fb bf
          = Except.error (invalid_config_value_error e "maximum pods")
        ∧ containsStr "maximum pods"
            (invalid_config_value_error e "maximum pods"))
  ∧ (((∃ e, b.server_addr = some (Except.error e))
      ∨ (∃ e, b.server_port = some (Except.error e))
      ∨ (∃ e, b.node_ip = some (Except.error e))
      ∨ (∃ e, b.max_pods = some (Except.error e))) →
      ∃ err, ConfigBuilder.build b fb bf = Except.error err) := by
  refine ⟨?_, ?_, ?_, ?_, ?_⟩
  · intro e h
    exact ⟨build_addr_invalid b fb bf e h,
      containsStr_invalid_config_value_error e "server address"⟩
  · intro e ha h
    exact ⟨build_port_invalid b fb bf e ha h,
      containsStr_invalid_config_value_error e "server port"⟩
  · intro e ha hp h
    exact ⟨build_node_ip_invalid b fb bf e ha hp h,
      containsStr_invalid_config_value_error e "node IP"⟩
  · intro e ha hp hn h
    exact ⟨build_max_pods_invalid b fb bf e ha hp hn h,
      containsStr_invalid_config_value_error e "maximum pods"⟩
  · intro hinv
    cases hb : ConfigBuilder.build b fb bf with
    | error err => exact ⟨err, rfl⟩
    | ok cfg =>
      obtain ⟨ha, hp, hn, hm⟩ := build_ok_fields_valid b fb bf cfg hb
      rcases hinv with ⟨e, he⟩ | ⟨e, he⟩ | ⟨e, he⟩ | ⟨e, he⟩
      · rcases ha with h0 | ⟨v, h0⟩ <;> rw [he] at h0 <;> simp at h0
      · rcases hp with h0 | ⟨v, h0⟩ <;> rw [he] at h0 <;> simp at h0
      · rcases hn with h0 | ⟨v, h0⟩ <;> rw [he] at h0 <;> simp at h0
      · rcases hm with h0 | ⟨v, h0⟩ <;> rw [he] at h0 <;> simp at h0

/-- Witness for C4's amended theorem: an unparsable listenerPort ("qq"),
no override, no other invalid field — build fails and the error text
contains "server port". -/
theorem C4_invalid_unoverridden_fails_naming_field_witness :
    ConfigBuilder.build
        (ConfigBuilder.set_server_port ConfigBuilder.default
          (some (Except.error "qq")))
        test_fallbacks BOOTSTRAP_FILE
      = Except.error "invalid server port in configuration file: qq"
    ∧ containsStr "server port"
        "invalid server port in configuration file: qq" :=
  (C4_invalid_unoverridden_fails_naming_field
      (ConfigBuilder.set_server_port ConfigBuilder.default
        (some (Except.error "qq")))
      test_fallbacks BOOTSTRAP_FILE).2.1 "qq" (Or.inl rfl) rfl

/-- `List.find?` returns the element at index i when it satisfies the
predicate and every earlier element does not. -/
lemma find_first_of_earlier_false {α : Type} (p : α → Bool) :
    ∀ (l : List α) (i : Nat) (h : i < l.length),
      p (l.get ⟨i, h⟩) = true →
      (∀ j (hj : j < i), p (l.get ⟨j, Nat.lt_trans hj h⟩) = false) →
      l.find? p = some (l.get ⟨i, h⟩)
  | [], i, h, _, _ => absurd h (Nat.not_lt_zero i)
  | x :: xs, 0, h, hp, _ => by
      simp only [List.get] at hp
      simp [List.find?, hp]
  | x :: xs, i + 1, h, hp, hprev => by
      have hx : p x = false := hprev 0 (Nat.succ_pos i)
      have ih := find_first_of_earlier_false p xs i (Nat.lt_of_succ_lt_succ h)
        hp (fun j hj => hprev (j + 1) (Nat.succ_lt_succ hj))
      simp only [List.get]
      simp [List.find?, hx, ih]

/-- C6: when node IP is Absent, build hands the node-IP fallback the
already-resolved hostname and the resolved bind address; the
`default_node_ip` fallback appends the port ":80" to the hostname,
resolves it through the naming service, and returns the IP of the first
candidate that is not loopback, not multicast, not unspecified and of the
preferred family; if the resolver yields no qualifying candidate it fails
with the error instructing the operator to specify a node IP manually
(resolver failures are propagated). -/
theorem C6_node_ip_discovery
    (to_socket_addrs : String → Except String (List SocketAddr)) :
    (∀ (b : ConfigBuilder) (fb : ConfigBuilderFallbacks) (bf : String)
        (cfg : Config),
      b.node_ip = none → ConfigBuilder.build b fb bf = Except.ok cfg →
      cfg.node_ip = fb.node_ip cfg.hostname cfg.server_config.addr)
  ∧ (∀ hn pref e, to_socket_addrs (hn ++ ":80") = Except.error e →
      default_node_ip to_socket_addrs hn pref = Except.error e)
  ∧ (∀ hn pref addrs, to_socket_addrs (hn ++ ":80") = Except.ok addrs →
      ((∀ a, a ∈ addrs → node_ip_candidate_ok pref a = false) →
        default_node_ip to_socket_addrs hn pref
          = Except.error
              "unable to find default IP address for node. Please specify a node IP manually")
      ∧ (∀ i (h : i < addrs.length),
          node_ip_candidate_ok pref (addrs.get ⟨i, h⟩) = true →
          (∀ j (hj : j < i),
            node_ip_candidate_ok pref (addrs.get ⟨j, Nat.lt_trans hj h⟩)
              = false) →
          default_node_ip to_socket_addrs hn pref
            = Except.ok (addrs.get ⟨i, h⟩).ip))
  ∧ (∀ pref a, node_ip_candidate_ok pref a = true ↔
      (a.ip.is_loopback = false ∧ a.ip.is_multicast = false
        ∧ a.ip.is_unspecified = false
        ∧ is_same_ip_family a.ip pref = true)) := by
  refine ⟨?_, ?_, ?_, ?_⟩
  · intro b fb bf cfg hni hok
    obtain ⟨_, _, _, _, _, _, h7, _, _, _, _⟩ := build_ok_elim b fb bf cfg hok
    rw [hni] at h7
    simp only [Option.getD] at h7
    injection h7 with h7
    exact h7.symm
  · intro hn pref e h
    simp [default_node_ip, h]
  · intro hn pref addrs h
    constructor
    · intro hall
      have hfind : addrs.find? (node_ip_candidate_ok pref) = none :=
        List.find?_eq_none.mpr (fun x hx => by simp [hall x hx])
      simp [default_node_ip, h, hfind]
    · intro i hi hp hprev
      have hfind := find_first_of_earlier_false
        (node_ip_candidate_ok pref) addrs i hi hp hprev
      simp [default_node_ip, h, hfind]
  · intro pref a
    simp [node_ip_candidate_ok, Bool.and_eq_true, Bool.not_eq_true']
    tauto

/-- Witness for C6: a resolver returning a loopback candidate followed by
a qualifying one — the fallback returns the second candidate's IP. -/
theorem C6_node_ip_discovery_witness :
    default_node_ip
        (fun _ => Except.ok
          [SocketAddr.mk (IpAddr.v4 127 0 0 1) 80,
           SocketAddr.mk (IpAddr.v4 10 0 0 5) 80])
        "myhost" (IpAddr.v4 1 1 1 1)
      = Except.ok (IpAddr.v4 10 0 0 5) :=
  ((C6_node_ip_discovery
        (fun _ => Except.ok
          [SocketAddr.mk (IpAddr.v4 127 0 0 1) 80,
           SocketAddr.mk (IpAddr.v4 10 0 0 5) 80])).2.2.1
      "myhost" (IpAddr.v4 1 1 1 1) _ rfl).2 1 (by decide) (by decide)
    (fun j hj => by
      have hj0 : j = 0 := by omega
      subst hj0
      exact (by decide : node_ip_candidate_ok (IpAddr.v4 1 1 1 1)
        (SocketAddr.mk (IpAddr.v4 127 0 0 1) 80) = false))

/-- Characterization of `splitFirst` succeeding: the key is everything
before the first `=` (so it contains none) and the value is the untouched
remainder. -/
lemma splitFirst_some (s : List Char) : ∀ k v,
    splitFirst s = some (k, v) → s = k ++ '=' :: v ∧ '=' ∉ k := by
  induction s with
  | nil => intro k v h; simp [splitFirst] at h
  | cons c rest ih =>
    intro k v h
    simp only [splitFirst] at h
    split at h
    next hc =>
      injection h with h2
      obtain ⟨hk, hv⟩ := Prod.mk.injEq .. ▸ h2
      subst hc
      rw [← hk, ← hv]
      simp
    next hc =>
      cases hr : splitFirst rest with
      | none => rw [hr] at h; simp at h
      | some kv =>
        obtain ⟨k2, v2⟩ := kv
        rw [hr] at h
        simp only [Option.some.injEq, Prod.mk.injEq] at h
        obtain ⟨hk, hv⟩ := h
        obtain ⟨hs, hmem⟩ := ih k2 v2 hr
        subst hk hv hs
        refine ⟨rfl, ?_⟩
        simp [List.mem_cons, hmem]
        intro heq
        exact hc heq.symm

/-- `splitFirst` fails exactly when the token contains no `=`. -/
lemma splitFirst_none (s : List Char) : splitFirst s = none ↔ '=' ∉ s := by
  induction s with
  | nil => simp [splitFirst]
  | cons c rest ih =>
    simp only [splitFirst]
    by_cases hc : c = '='
    · subst hc; simp
    · rw [if_neg hc]
      cases hr : splitFirst rest with
      | none =>
        simp only [List.mem_cons]
        constructor
        · intro _ hor
          rcases hor with hor | hor
          · exact hc hor.symm
          · exact (ih.mp hr) hor
        · intro _; trivial
      | some kv =>
        simp only [List.mem_cons]
        constructor
        · intro habs; exact absurd habs (by simp)
        · intro hni
          exfalso
          rcases (splitFirst_some rest kv.1 kv.2 (by rw [hr])) with ⟨hs, _⟩
          exact hni (Or.inr (by rw [hs]; simp))

/-- Characterization of `split_one_label` succeeding. -/
lemma split_one_label_some (s k v : List Char)
    (h : split_one_label s = some (k, v)) :
    '=' ∉ k ∧ (s = k ++ '=' :: v ∨ (s = k ∧ v = [])) := by
  simp only [split_one_label] at h
  cases hf : splitFirst s with
  | some kv =>
    obtain ⟨k2, v2⟩ := kv
    rw [hf] at h
    obtain ⟨hs, hmem⟩ := splitFirst_some s k2 v2 hf
    cases hk2 : k2 with
    | nil => rw [hk2] at h; simp at h
    | cons c ks =>
      rw [hk2] at h
      simp only [Option.some.injEq, Prod.mk.injEq] at h
      obtain ⟨hk, hv⟩ := h
      subst hk hv
      rw [hk2] at hs hmem
      exact ⟨hmem, Or.inl hs⟩
  | none =>
    rw [hf] at h
    cases s with
    | nil => simp at h
    | cons c rest =>
      simp only [Option.some.injEq, Prod.mk.injEq] at h
      obtain ⟨hk, hv⟩ := h
      subst hk hv
      exact ⟨(splitFirst_none _).mp hf, Or.inr ⟨rfl, rfl⟩⟩

/-- C7: each raw label token is split on the first `=` only (the key
contains no `=`, the remainder keeps any later `=`); a token without `=`
yields the pair (token, ""); a token whose key part is empty is dropped
silently (`none`, no error); duplicate keys resolve with the last pair
winning; and the inputs ["label1=val1", "=bad", "justkey"] produce exactly
the mapping made of ("label1","val1") and ("justkey",""). -/
theorem C7_label_parsing :
    (∀ s k v, split_one_label s = some (k, v) →
      '=' ∉ k ∧ (s = k ++ '=' :: v ∨ (s = k ∧ v = [])))
  ∧ (∀ s, s ≠ [] → '=' ∉ s → split_one_label s = some (s, []))
  ∧ (split_one_label [] = none
      ∧ ∀ rest, split_one_label ('=' :: rest) = none)
  ∧ (∀ ps k v, hashMap_get (ps ++ [(k, v)]) k = some v)
  ∧ (ConfigBuilder.from_opts
        (Opts.mk none none none none none none
          ["label1=val1".data, "=bad".data, "justkey".data]
          none none none BOOTSTRAP_FILE)).node_labels
      = some [("label1".data, "val1".data), ("justkey".data, [])]
  ∧ (hashMap_get [("label1".data, "val1".data), ("justkey".data, [])]
        "label1".data = some "val1".data
    ∧ hashMap_get [("label1".data, "val1".data), ("justkey".data, [])]
        "justkey".data = some []
    ∧ ∀ k,
        hashMap_get [("label1".data, "val1".data), ("justkey".data, [])] k
          ≠ none →
        k = "label1".data ∨ k = "justkey".data) := by
  refine ⟨split_one_label_some, ?_, ⟨rfl, ?_⟩, ?_, by decide,
    by decide, by decide, ?_⟩
  · intro s hne hni
    have hf := (splitFirst_none s).mpr hni
    cases s with
    | nil => exact absurd rfl hne
    | cons c rest => simp [split_one_label, hf]
  · intro rest
    simp [split_one_label, splitFirst]
  · intro ps k v
    simp only [hashMap_get, List.reverse_append, List.reverse_cons,
      List.reverse_nil, List.nil_append, List.singleton_append]
    rw [List.find?_cons_of_pos _ (by simp)]
    rfl
  · intro k hk
    by_cases h1 : k = "label1".data
    · exact Or.inl h1
    · by_cases h2 : k = "justkey".data
      · exact Or.inr h2
      · exfalso
        apply hk
        have hb1 : ("label1".data == k) = false :=
          beq_eq_false_iff_ne.mpr (fun h => h1 h.symm)
        have hb2 : ("justkey".data == k) = false :=
          beq_eq_false_iff_ne.mpr (fun h => h2 h.symm)
        simp [hashMap_get, List.find?, hb1, hb2]

/-- Witness for C7: a token without `=` yields the pair (token, ""). -/
theorem C7_label_parsing_witness :
    split_one_label "justkey".data = some ("justkey".data, []) :=
  C7_label_parsing.2.1 "justkey".data (by decide) (by decide)
